import Mathlib

/- Verification of the MOTO orchestration spec against the repository sources.
   Frontend sources under src/ are embedded directly. Backend engine modules that
   are not under src/ are modelled from the spec; their doc comments say so. -/

namespace MOTO

/-- String(i).padStart(3, the zero character), as used for task ids in
src/unnamed/part_006 (WorkflowPanel.generatePlaceholderTasks). -/
def pad3 (n : Nat) : String :=
  let s := toString n
  if s.length ≥ 3 then s else String.mk (List.replicate (3 - s.length) '0') ++ s

/-- Task view object, per the shape produced by generatePlaceholderTasks in
src/unnamed/part_006 and the spec data model (task id, sequence number, role label,
mode, resolved provider, using_boost, completed and active flags). -/
structure Task where
  task_id : String
  sequence_number : Nat
  role : String
  mode : Option String
  provider : String
  using_boost : Bool
  completed : Bool
  active : Bool
  deriving Repr, DecidableEq

/-- The aggregator-mode placeholder task at loop index i of
generatePlaceholderTasks in src/unnamed/part_006 (cyclePos = i % 4; positions
0..2 are Submitter cyclePos+1, position 3 is Validator). -/
def aggregatorPlaceholderTask (i : Nat) : Task :=
  let cyclePos := i % 4
  if cyclePos < 3 then
    let submitterId := cyclePos + 1
    { task_id := "agg_sub" ++ toString submitterId ++ "_" ++ pad3 i
      sequence_number := i + 1
      role := "Submitter " ++ toString submitterId ++
        (if submitterId = 1 then " (Main Submitter)" else "")
      mode := none
      provider := "lm_studio"
      using_boost := false
      completed := false
      active := false }
  else
    { task_id := "agg_val_" ++ pad3 i
      sequence_number := i + 1
      role := "Validator"
      mode := none
      provider := "lm_studio"
      using_boost := false
      completed := false
      active := false }

/-- The compiler-mode placeholder task at loop index i of
generatePlaceholderTasks in src/unnamed/part_006 (the repeating pattern list is
High-Context, Validator, High-Context, Validator). -/
def compilerPlaceholderTask (i : Nat) : Task :=
  let pattern := ["High-Context", "Validator", "High-Context", "Validator"]
  let role := pattern.getD (i % pattern.length) ""
  { task_id := "comp_" ++ (if role = "Validator" then "val" else "hc") ++ "_" ++ pad3 i
    sequence_number := i + 1
    role := role
    mode := some (if role = "High-Context" then "Construction" else "Review")
    provider := "lm_studio"
    using_boost := false
    completed := false
    active := false }

/-- generatePlaceholderTasks from src/unnamed/part_006: 20 placeholder tasks,
aggregator pattern S1, S2, S3, V repeating (numSubmitters = 3 by default) or
compiler pattern High-Context, Validator alternating; empty list otherwise. -/
def generatePlaceholderTasks (detectedMode : String) : List Task :=
  if detectedMode = "aggregator" then (List.range 20).map aggregatorPlaceholderTask
  else if detectedMode = "compiler" then (List.range 20).map compilerPlaceholderTask
  else []

/-- Role of a predicted turn, per the spec data model. -/
inductive PredictedRole where
  | submitter (id : Nat)
  | validator
  | highContext
  deriving Repr, DecidableEq

/-- Modelled from the spec: the backend TaskScheduler predict operation is not
under src/ (only the frontend WorkflowPanel placeholder generator is). Per spec
section 4.1 the sequencing rule per mode is fixed and cyclic: aggregator mode
cycles Submitter 1..N then Validator, repeating; compiler mode alternates a
high-context role and Validator. Boost state affects only the boost overlay,
never the role sequence, so it is omitted. This gives the role at 0-based
position k of the infinite predicted sequence for N submitters. -/
def predictRole (mode : String) (numSubmitters : Nat) (k : Nat) : PredictedRole :=
  if mode = "aggregator" then
    if k % (numSubmitters + 1) < numSubmitters then
      PredictedRole.submitter (k % (numSubmitters + 1) + 1)
    else PredictedRole.validator
  else if k % 2 = 0 then PredictedRole.highContext
  else PredictedRole.validator

/-- The display label that the WorkflowPanel placeholder generator attaches to
each role (Submitter 1 additionally carries the Main Submitter suffix). -/
def roleLabel : PredictedRole → String
  | PredictedRole.submitter i =>
      "Submitter " ++ toString i ++ (if i = 1 then " (Main Submitter)" else "")
  | PredictedRole.validator => "Validator"
  | PredictedRole.highContext => "High-Context"

/-- C1: for every number of submitters N ≥ 1, in aggregator mode the predicted
task sequence is exactly the cycle Submitter 1, ..., Submitter N, Validator,
repeated indefinitely (positions 0..N-1 are Submitters 1..N, position N is the
Validator, and the sequence has period N+1); in compiler mode it alternates the
high-context role and the Validator. The frontend placeholder generator from
src/unnamed/part_006 realizes exactly this sequence at N = 3 for its 20 tasks,
in both modes. -/
theorem C1_predict_cycle (n : Nat) (h : 1 ≤ n) :
    (∀ j, j < n → predictRole "aggregator" n j = PredictedRole.submitter (j + 1)) ∧
    predictRole "aggregator" n n = PredictedRole.validator ∧
    (∀ k, predictRole "aggregator" n (k + (n + 1)) = predictRole "aggregator" n k) ∧
    predictRole "compiler" n 0 = PredictedRole.highContext ∧
    predictRole "compiler" n 1 = PredictedRole.validator ∧
    (∀ k, predictRole "compiler" n (k + 2) = predictRole "compiler" n k) ∧
    (generatePlaceholderTasks "aggregator").map Task.role =
      (List.range 20).map (fun i => roleLabel (predictRole "aggregator" 3 i)) ∧
    (generatePlaceholderTasks "compiler").map Task.role =
      (List.range 20).map (fun i => roleLabel (predictRole "compiler" 3 i)) := by
  refine ⟨?_, ?_, ?_, ?_, ?_, ?_, ?_, ?_⟩
  · intro j hj
    have hmod : j % (n + 1) = j := Nat.mod_eq_of_lt (Nat.lt_succ_of_lt hj)
    simp [predictRole, hmod, hj]
  · have hmod : n % (n + 1) = n := Nat.mod_eq_of_lt (Nat.lt_succ_self n)
    simp [predictRole, hmod]
  · intro k
    simp [predictRole, Nat.add_mod_right]
  · simp [predictRole]
  · simp [predictRole]
  · intro k
    simp [predictRole, Nat.add_mod_right]
  · decide
  · decide

/-- Witness for C1 at N = 3: position 0 is Submitter 1 and position 3 is the
Validator of the aggregator cycle. -/
theorem C1_predict_cycle_witness :
    predictRole "aggregator" 3 0 = PredictedRole.submitter 1 ∧
    predictRole "aggregator" 3 3 = PredictedRole.validator :=
  ⟨(C1_predict_cycle 3 (by decide)).1 0 (by decide),
   (C1_predict_cycle 3 (by decide)).2.1⟩

/-- handleSetBoostNextCount from src/unnamed/part_006 (WorkflowPanel): the input
string is parsed with parseInt; when parsing fails (NaN) or the value is
negative the handler returns without changing the count, otherwise the new
count is sent to the backend and mirrored locally. The parse result is
modelled as none for NaN. -/
def handleSetBoostNextCount (input : Option Int) (current : Nat) : Nat :=
  match input with
  | none => current
  | some k => if k < 0 then current else k.toNat

/-- Modelled from the spec: the backend dispatch path that consumes
boost_next_count is not under src/. Per spec sections 3 and 4.1, the counter is
consumed only when a task actually dispatches, not at prediction time: while
boost_next_count is positive a dispatched task runs under the boosted provider
and the counter decreases by exactly 1, and at 0 the task runs under the
default provider with the counter unchanged (never below 0). The step returns
whether the dispatched task was boosted, with the new counter. -/
def dispatchStep (c : Nat) : Bool × Nat :=
  if 0 < c then (true, c - 1) else (false, c)

/-- The boost flags of the next m actually dispatched tasks, starting from
counter c. -/
def runDispatch (c : Nat) : Nat → List Bool
  | 0 => []
  | Nat.succ m => (dispatchStep c).1 :: runDispatch (dispatchStep c).2 m

/-- The counter value after m dispatched tasks, starting from counter c. -/
def counterAfter (c : Nat) : Nat → Nat
  | 0 => c
  | Nat.succ m => counterAfter (dispatchStep c).2 m

lemma runDispatch_succ (c m : Nat) :
    runDispatch c (m + 1) = (dispatchStep c).1 :: runDispatch (dispatchStep c).2 m := rfl

lemma counterAfter_succ (c m : Nat) :
    counterAfter c (m + 1) = counterAfter (dispatchStep c).2 m := rfl

lemma dispatchStep_fst_zero : (dispatchStep 0).1 = false := rfl

lemma dispatchStep_snd_zero : (dispatchStep 0).2 = 0 := rfl

lemma dispatchStep_fst_succ (j : Nat) : (dispatchStep (j + 1)).1 = true := by
  simp [dispatchStep]

lemma dispatchStep_snd_succ (j : Nat) : (dispatchStep (j + 1)).2 = j := by
  simp [dispatchStep]

/-- C2: setting boost_next_count to K makes exactly the next K dispatched
tasks run boosted (dispatch i is boosted iff i < K); after m dispatches the
counter is K - m in truncated subtraction, so it decreases by exactly 1 per
boosted dispatch and never goes below 0; once it reaches 0 subsequent tasks
use the default provider; and the frontend setter rejects negative input,
leaving the count unchanged, while accepting any K ≥ 0. -/
theorem C2_boost_next_count (K : Nat) :
    (∀ m, runDispatch K m = (List.range m).map (fun i => decide (i < K))) ∧
    (∀ m, counterAfter K m = K - m) ∧
    (∀ c, 0 < c → dispatchStep c = (true, c - 1)) ∧
    dispatchStep 0 = (false, 0) ∧
    (∀ k : Int, k < 0 → ∀ cur, handleSetBoostNextCount (some k) cur = cur) ∧
    (∀ k : Int, 0 ≤ k → ∀ cur, handleSetBoostNextCount (some k) cur = k.toNat) := by
  refine ⟨?_, ?_, ?_, ?_, ?_, ?_⟩
  · intro m
    induction m generalizing K with
    | zero => simp [runDispatch]
    | succ m ih =>
      rw [List.range_succ_eq_map, List.map_cons, List.map_map]
      cases K with
      | zero =>
        rw [runDispatch_succ, dispatchStep_fst_zero, dispatchStep_snd_zero, ih 0]
        simp [Function.comp]
      | succ j =>
        rw [runDispatch_succ, dispatchStep_fst_succ, dispatchStep_snd_succ, ih j]
        simp [Function.comp, Nat.succ_lt_succ_iff]
  · intro m
    induction m generalizing K with
    | zero => simp [counterAfter]
    | succ m ih =>
      cases K with
      | zero =>
        rw [counterAfter_succ, dispatchStep_snd_zero, ih 0]
        omega
      | succ j =>
        rw [counterAfter_succ, dispatchStep_snd_succ, ih j]
        omega
  · intro c hc
    simp [dispatchStep, hc]
  · rfl
  · intro k hk cur
    simp [handleSetBoostNextCount, hk]
  · intro k hk cur
    simp [handleSetBoostNextCount, Int.not_lt.mpr hk]

/-- Witness for C2 at K = 2: of the next three dispatched tasks exactly the
first two are boosted, the counter ends at 0, and a positive counter is
consumed by exactly 1. -/
theorem C2_boost_next_count_witness :
    runDispatch 2 3 = [true, true, false] ∧
    counterAfter 2 3 = 0 ∧
    dispatchStep 2 = (true, 1) :=
  ⟨((C2_boost_next_count 2).1 3).trans (by decide),
   ((C2_boost_next_count 2).2.1 3).trans (by decide),
   (C2_boost_next_count 2).2.2.1 2 (by decide)⟩

/-- handleBoostToggled from src/unnamed/part_006 (WorkflowPanel): on a
task_boost_toggled event, set using_boost of exactly the matching task to the
boosted flag carried by the event, leaving every other task unchanged. This is
the explicit per-task toggle path, the only handler that can clear a displayed
boost flag. -/
def handleBoostToggled (taskId : String) (boosted : Bool) (tasks : List Task) : List Task :=
  tasks.map (fun t => if t.task_id = taskId then { t with using_boost := boosted } else t)

/-- Modelled from the spec: the backend boost-overlay resolution applied per
predicted task is not under src/. Per spec section 4.1 the precedence,
highest first, is (a) an explicit per-task boost toggle set by a user action,
(b) a positive boost_next_count, (c) membership of the task role or mode in a
boosted category. The explicit argument is none when no user toggle was
recorded for the task. -/
def boostOverlay (explicit : Option Bool) (nextCountPos : Bool) (category : Bool) : Bool :=
  match explicit with
  | some b => b
  | none => if nextCountPos then true else category

/-- C3: the boost overlay of a predicted task is decided by the exact
precedence explicit toggle, then boost_next_count, then category: a recorded
explicit toggle always wins regardless of the other inputs; without one a
positive next-count boosts the task; otherwise the category decides. The
frontend explicit-toggle handler sets exactly the toggled value on exactly the
matching task. -/
theorem C3_overlay_precedence :
    (∀ b nc cat : Bool, boostOverlay (some b) nc cat = b) ∧
    (∀ cat : Bool, boostOverlay none true cat = true) ∧
    (∀ cat : Bool, boostOverlay none false cat = cat) ∧
    (∀ (taskId : String) (b : Bool) (tasks : List Task) (i : Nat) (t : Task),
      tasks[i]? = some t →
      (handleBoostToggled taskId b tasks)[i]? =
        some (if t.task_id = taskId then { t with using_boost := b } else t)) := by
  refine ⟨fun b nc cat => rfl, fun cat => rfl, fun cat => rfl, ?_⟩
  intro taskId b tasks i t ht
  simp only [handleBoostToggled]
  rw [List.getElem?_map, ht]
  rfl

/-- Witness for C3: an explicit off-toggle wins over an active next-count and
an active category, and the toggle handler boosts exactly the matching task. -/
theorem C3_overlay_precedence_witness :
    boostOverlay (some false) true true = false ∧
    (handleBoostToggled "t1" true
        [{ task_id := "t1", sequence_number := 1, role := "Validator", mode := none,
           provider := "lm_studio", using_boost := false, completed := false,
           active := false }])[0]? =
      some { task_id := "t1", sequence_number := 1, role := "Validator", mode := none,
             provider := "lm_studio", using_boost := true, completed := false,
             active := false } := by
  refine ⟨C3_overlay_precedence.1 false true true, ?_⟩
  have h := C3_overlay_precedence.2.2.2 "t1" true
    [{ task_id := "t1", sequence_number := 1, role := "Validator", mode := none,
       provider := "lm_studio", using_boost := false, completed := false,
       active := false }] 0
    { task_id := "t1", sequence_number := 1, role := "Validator", mode := none,
      provider := "lm_studio", using_boost := false, completed := false,
      active := false } rfl
  exact h.trans (by decide)

/-- Submission status, per the spec data model: pending, accepted, rejected or
declined. -/
inductive SubmissionStatus where
  | pending
  | accepted
  | rejected
  | declined
  deriving Repr, DecidableEq

/-- A status is terminal iff it is not pending. -/
def isTerminal : SubmissionStatus → Bool
  | SubmissionStatus.pending => false
  | _ => true

/-- Modelled from the spec: the backend SubmissionCoordinator, which owns
Submission records, is not under src/. Per spec section 3 the only status
transition of a Submission is pending to one terminal state (accepted,
rejected or declined); terminal statuses feed the machine back to Idle but the
Submission record itself is never touched again. -/
inductive statusStep : SubmissionStatus → SubmissionStatus → Prop where
  | finalize (t : SubmissionStatus) :
      isTerminal t = true → statusStep SubmissionStatus.pending t

/-- C4: every Submission status transition starts from pending and ends in a
terminal status, so along any chain of transitions a Submission reaches at
most one terminal status; and once terminal the status is immutable: no chain
of transitions leaves it. -/
theorem C4_terminal_immutable :
    (∀ s t, statusStep s t → s = SubmissionStatus.pending ∧ isTerminal t = true) ∧
    (∀ s t, isTerminal s = true → Relation.ReflTransGen statusStep s t → t = s) := by
  constructor
  · intro s t h
    cases h with
    | finalize t ht => exact ⟨rfl, ht⟩
  · intro s t hs h
    induction h with
    | refl => rfl
    | tail hab hbc ih =>
      subst ih
      cases hbc with
      | finalize t ht => simp [isTerminal] at hs

/-- Witness for C4: from the terminal status accepted, the reflexive chain
stays at accepted. -/
theorem C4_terminal_immutable_witness :
    SubmissionStatus.accepted = SubmissionStatus.accepted :=
  C4_terminal_immutable.2 SubmissionStatus.accepted SubmissionStatus.accepted rfl
    Relation.ReflTransGen.refl

/-- ModelHealthRecord, per the spec data model: model id, consecutive failure
count, recovery attempt count, in_recovery flag, recovery stage label. -/
structure ModelHealthRecord where
  model_id : String
  consecutive_failures : Nat
  recovery_attempts : Nat
  in_recovery : Bool
  recovery_stage : Option String
  deriving Repr, DecidableEq

/-- The engine-level state used for the global-pause claim: health records of
all models plus the list of dispatched task ids (most recent first). -/
structure EngineState where
  records : List ModelHealthRecord
  dispatched : List String
  deriving Repr, DecidableEq

/-- Whether any model is currently in recovery. -/
def anyInRecovery (s : EngineState) : Bool :=
  s.records.any (fun r => r.in_recovery)

/-- Modelled from the spec: the backend SubmissionCoordinator and
ModelHealthMonitor are not under src/. Per spec sections 4.3 and 5, dispatch
of a new task requires that no model at all is in recovery (in_recovery is a
global write-lock, not scoped to the failing model); beginRecovery sets the
in_recovery flag and an initial stage for one model; completeRecovery clears
it, on success resetting the failure count and bumping the attempt counter;
recordOutcome updates the failure counter of one model without dispatching. -/
inductive engineStep : EngineState → EngineState → Prop where
  | dispatch (s : EngineState) (task : String) :
      anyInRecovery s = false →
      engineStep s { s with dispatched := task :: s.dispatched }
  | beginRecovery (s : EngineState) (m : String) :
      engineStep s
        { s with records := s.records.map (fun r =>
            if r.model_id = m then
              { r with in_recovery := true, recovery_stage := some "ejecting" }
            else r) }
  | completeRecovery (s : EngineState) (m : String) (success : Bool) :
      engineStep s
        { s with records := s.records.map (fun r =>
            if r.model_id = m then
              { r with
                in_recovery := false
                recovery_stage := none
                consecutive_failures := if success then 0 else r.consecutive_failures
                recovery_attempts :=
                  if success then r.recovery_attempts + 1 else r.recovery_attempts }
            else r) }
  | recordOutcome (s : EngineState) (m : String) (success : Bool) :
      engineStep s
        { s with records := s.records.map (fun r =>
            if r.model_id = m then
              { r with consecutive_failures :=
                  if success then 0 else r.consecutive_failures + 1 }
            else r) }

/-- C5: in every state from which a step dispatches a new task (the dispatched
list changes), no ModelHealthRecord has in_recovery set: dispatch is globally
paused while any model is recovering, not only the recovering one. -/
theorem C5_global_pause :
    ∀ s s2, engineStep s s2 → s2.dispatched ≠ s.dispatched →
      anyInRecovery s = false ∧ ∀ r ∈ s.records, r.in_recovery = false := by
  intro s s2 h hne
  cases h with
  | dispatch task hrec =>
    refine ⟨hrec, ?_⟩
    intro r hr
    have := List.any_eq_false.mp hrec r hr
    simpa using this
  | beginRecovery m => exact absurd rfl hne
  | completeRecovery m success => exact absurd rfl hne
  | recordOutcome m success => exact absurd rfl hne

/-- Witness for C5: a concrete dispatch step from a state with one healthy
record certifies that the source state has no model in recovery. -/
theorem C5_global_pause_witness :
    anyInRecovery
      { records := [{ model_id := "modelA", consecutive_failures := 0,
                      recovery_attempts := 0, in_recovery := false,
                      recovery_stage := none }],
        dispatched := [] } = false :=
  (C5_global_pause
    { records := [{ model_id := "modelA", consecutive_failures := 0,
                    recovery_attempts := 0, in_recovery := false,
                    recovery_stage := none }],
      dispatched := [] }
    { records := [{ model_id := "modelA", consecutive_failures := 0,
                    recovery_attempts := 0, in_recovery := false,
                    recovery_stage := none }],
      dispatched := ["task1"] }
    (engineStep.dispatch _ "task1" rfl) (by simp)).1

/-- Per-model health counters: the consecutive failure count and the number of
CorruptionDetected/recovery-initiated events emitted for this model id. -/
structure HealthCounters where
  failures : Nat
  corruption_events : Nat
  deriving Repr, DecidableEq

/-- Modelled from the spec: ModelHealthMonitor.recordOutcome is not under src/
(the frontend only displays the failure counts it reports). Per spec sections
4.3 and 7, for the record of the given model id a failure increments the
consecutive failure count and, exactly when the count reaches
corruption_threshold, emits one CorruptionDetected/recovery-initiated event; a
success resets the count to 0 with no recovery cycle required. The monitor
keeps one such record per model id, so the per-id behavior is this
single-record transition. -/
def recordOutcome (threshold : Nat) (s : HealthCounters) (success : Bool) : HealthCounters :=
  if success then { s with failures := 0 }
  else
    { failures := s.failures + 1
      corruption_events :=
        if s.failures + 1 = threshold then s.corruption_events + 1
        else s.corruption_events }

/-- recordOutcome folded over a list of call outcomes, oldest first. -/
def runOutcomes (threshold : Nat) (s : HealthCounters) : List Bool → HealthCounters
  | [] => s
  | b :: bs => runOutcomes threshold (recordOutcome threshold s b) bs

lemma runOutcomes_false_lt (threshold : Nat) :
    ∀ (k f e : Nat), f + k < threshold →
      runOutcomes threshold ⟨f, e⟩ (List.replicate k false) = ⟨f + k, e⟩ := by
  intro k
  induction k with
  | zero => intro f e _; simp [runOutcomes]
  | succ k ih =>
    intro f e hlt
    rw [List.replicate_succ, runOutcomes]
    have hne : ¬ (f + 1 = threshold) := by omega
    have hstep : recordOutcome threshold ⟨f, e⟩ false = ⟨f + 1, e⟩ := by
      simp [recordOutcome, hne]
    rw [hstep, ih (f + 1) e (by omega)]
    congr 1
    omega

lemma runOutcomes_false_eq (threshold : Nat) :
    ∀ (k f e : Nat), 0 < k → f + k = threshold →
      runOutcomes threshold ⟨f, e⟩ (List.replicate k false) = ⟨threshold, e + 1⟩ := by
  intro k
  induction k with
  | zero => intro f e h0 _; omega
  | succ k ih =>
    intro f e _ heq
    rw [List.replicate_succ, runOutcomes]
    cases k with
    | zero =>
      have hth : f + 1 = threshold := by omega
      have hstep : recordOutcome threshold ⟨f, e⟩ false = ⟨threshold, e + 1⟩ := by
        simp [recordOutcome, hth]
      rw [hstep]
      simp [runOutcomes]
    | succ j =>
      have hne : ¬ (f + 1 = threshold) := by omega
      have hstep : recordOutcome threshold ⟨f, e⟩ false = ⟨f + 1, e⟩ := by
        simp [recordOutcome, hne]
      rw [hstep, ih (f + 1) e (by omega) (by omega)]

/-- C6: a failure outcome increments the consecutive failure count and a
success resets it to 0; starting healthy, any run of fewer than
corruption_threshold consecutive failures emits no corruption event, a run of
exactly corruption_threshold consecutive failures emits exactly one
CorruptionDetected/recovery-initiated event, and one subsequent success resets
the failure count to 0 while emitting nothing further (no recovery cycle
needed). -/
theorem C6_record_outcome (threshold : Nat) (h : 1 ≤ threshold) :
    (∀ s, recordOutcome threshold s true =
      { failures := 0, corruption_events := s.corruption_events }) ∧
    (∀ s, (recordOutcome threshold s false).failures = s.failures + 1) ∧
    (∀ k, k < threshold →
      runOutcomes threshold ⟨0, 0⟩ (List.replicate k false) = ⟨k, 0⟩) ∧
    runOutcomes threshold ⟨0, 0⟩ (List.replicate threshold false) = ⟨threshold, 1⟩ ∧
    recordOutcome threshold
      (runOutcomes threshold ⟨0, 0⟩ (List.replicate threshold false)) true = ⟨0, 1⟩ := by
  have hrun : runOutcomes threshold ⟨0, 0⟩ (List.replicate threshold false) = ⟨threshold, 1⟩ :=
    runOutcomes_false_eq threshold threshold 0 0 h (by omega)
  refine ⟨?_, ?_, ?_, hrun, ?_⟩
  · intro s; simp [recordOutcome]
  · intro s; simp [recordOutcome]
  · intro k hk
    have := runOutcomes_false_lt threshold k 0 0 (by omega)
    simpa using this
  · rw [hrun]
    simp [recordOutcome]

/-- Witness for C6 at corruption_threshold = 5, the spec example: exactly one
corruption event after 5 consecutive failures, none after 4, and a subsequent
success resets the count to 0 without clearing the single event. -/
theorem C6_record_outcome_witness :
    runOutcomes 5 ⟨0, 0⟩ (List.replicate 4 false) = ⟨4, 0⟩ ∧
    runOutcomes 5 ⟨0, 0⟩ (List.replicate 5 false) = ⟨5, 1⟩ ∧
    recordOutcome 5 (runOutcomes 5 ⟨0, 0⟩ (List.replicate 5 false)) true = ⟨0, 1⟩ :=
  ⟨(C6_record_outcome 5 (by decide)).2.2.1 4 (by decide),
   (C6_record_outcome 5 (by decide)).2.2.2.1,
   (C6_record_outcome 5 (by decide)).2.2.2.2⟩

/-- CleanupReviewResult, per the spec data model: review number, accepted-count
snapshot, whether removal was proposed, whether it was executed, and the
affected submission ids (a list, so that the at-most-one property is a
statement rather than a typing artifact). -/
structure CleanupReviewResult where
  review_number : Nat
  accepted_count : Nat
  removal_proposed : Bool
  removal_executed : Bool
  affected : List Nat
  deriving Repr, DecidableEq

/-- Modelled from the spec: the backend CleanupReviewer.review is not under
src/ (the frontend only displays its events, which carry one submission number
each). Per spec section 4.5, the validator may propose one specific accepted
entry; only if a second confirmation pass agrees is that single entry removed
from the corpus and removal_executed set; otherwise no mutation occurs. The
corpus is the list of accepted submission ids; proposal is the entry the
validator proposed, if any; confirmed is the outcome of the confirmation
pass. -/
def review (reviewNumber : Nat) (corpus : List Nat) (proposal : Option Nat)
    (confirmed : Bool) : CleanupReviewResult × List Nat :=
  match proposal with
  | none =>
    ({ review_number := reviewNumber
       accepted_count := corpus.length
       removal_proposed := false
       removal_executed := false
       affected := [] }, corpus)
  | some sid =>
    if confirmed then
      ({ review_number := reviewNumber
         accepted_count := corpus.length
         removal_proposed := true
         removal_executed := true
         affected := [sid] }, corpus.erase sid)
    else
      ({ review_number := reviewNumber
         accepted_count := corpus.length
         removal_proposed := true
         removal_executed := false
         affected := [] }, corpus)

/-- C7: every cleanup review affects at most one accepted entry: a
CleanupReviewResult never carries removal_executed with more than one affected
submission id (when a removal executed, exactly one id is affected); when the
confirmation pass does not agree the corpus is left unchanged; and the
resulting corpus never loses more than one entry. -/
theorem C7_single_removal :
    ∀ (n : Nat) (corpus : List Nat) (proposal : Option Nat) (confirmed : Bool),
      (review n corpus proposal confirmed).1.affected.length ≤ 1 ∧
      ((review n corpus proposal confirmed).1.removal_executed = true →
        (review n corpus proposal confirmed).1.affected.length = 1) ∧
      (confirmed = false → (review n corpus proposal confirmed).2 = corpus) ∧
      corpus.length ≤ (review n corpus proposal confirmed).2.length + 1 := by
  intro n corpus proposal confirmed
  match proposal with
  | none =>
    refine ⟨by simp [review], by simp [review], fun _ => rfl, by simp [review]⟩
  | some sid =>
    cases confirmed with
    | false =>
      refine ⟨by simp [review], by simp [review], fun _ => rfl, by simp [review]⟩
    | true =>
      refine ⟨by simp [review], by simp [review], fun hc => Bool.noConfusion hc, ?_⟩
      have h2 : (review n corpus (some sid) true).2 = corpus.erase sid := by simp [review]
      by_cases hmem : sid ∈ corpus
      · rw [h2, List.length_erase_of_mem hmem]
        omega
      · rw [h2, List.erase_of_not_mem hmem]
        omega

/-- Witness for C7: with a proposed entry but a failed confirmation pass, the
corpus is unchanged and the executed removal count is zero. -/
theorem C7_single_removal_witness :
    (review 1 [10, 20] (some 10) false).2 = [10, 20] ∧
    (review 1 [10, 20] (some 10) false).1.affected.length ≤ 1 :=
  ⟨(C7_single_removal 1 [10, 20] (some 10) false).2.2.1 rfl,
   (C7_single_removal 1 [10, 20] (some 10) false).1⟩

/-- AgentCallError, per the spec error taxonomy. -/
inductive AgentCallError where
  | timeout
  | malformed
  | quota_exceeded
  | policy_block
  deriving Repr, DecidableEq

/-- Outcome of one external agent call. -/
inductive CallResult where
  | ok (content : String)
  | err (e : AgentCallError)
  deriving Repr, DecidableEq

/-- Modelled from the spec: the failure classes that trigger the automatic
fallback-provider retry are quota/credits exhausted and account policy block
(spec sections 4.4 and 7). -/
def isFallbackTrigger : AgentCallError → Bool
  | AgentCallError.quota_exceeded => true
  | AgentCallError.policy_block => true
  | _ => false

/-- What one routed execution produced: the result surfaced to the caller,
whether a health failure was recorded against the primary model, and how many
fallback-provider retries were made. -/
structure RouteOutcome where
  result : CallResult
  primary_failure_recorded : Bool
  fallback_attempts : Nat
  deriving Repr, DecidableEq

/-- Modelled from the spec: the backend ProviderRouter execute/classify path is
not under src/ (the frontend BoostControlModal only documents the automatic
fallback). Per spec sections 4.4 and 7: a successful primary call records no
failure; a quota_exceeded or policy_block failure with a fallback configured is
retried exactly once against the fallback provider, transparently, and a
health failure is recorded only if the fallback call also fails; any other
failure, or a fallback-class failure with no fallback configured, is recorded
directly against the model. -/
def routeExecute (fallbackConfigured : Bool) (primary : CallResult)
    (fallbackResult : CallResult) : RouteOutcome :=
  match primary with
  | CallResult.ok c =>
    { result := CallResult.ok c, primary_failure_recorded := false, fallback_attempts := 0 }
  | CallResult.err e =>
    if isFallbackTrigger e && fallbackConfigured then
      match fallbackResult with
      | CallResult.ok c =>
        { result := CallResult.ok c, primary_failure_recorded := false, fallback_attempts := 1 }
      | CallResult.err e2 =>
        { result := CallResult.err e2, primary_failure_recorded := true, fallback_attempts := 1 }
    else
      { result := CallResult.err e, primary_failure_recorded := true, fallback_attempts := 0 }

/-- C8: when the boosted call fails with quota_exceeded or policy_block and a
fallback model is configured, the router retries exactly once against the
fallback provider; a successful fallback surfaces its content with no health
failure recorded for the primary model; a health failure is recorded exactly
when the fallback call also fails. -/
theorem C8_fallback_retry (e : AgentCallError) (he : isFallbackTrigger e = true) :
    (∀ c, routeExecute true (CallResult.err e) (CallResult.ok c) =
      { result := CallResult.ok c, primary_failure_recorded := false,
        fallback_attempts := 1 }) ∧
    (∀ e2, routeExecute true (CallResult.err e) (CallResult.err e2) =
      { result := CallResult.err e2, primary_failure_recorded := true,
        fallback_attempts := 1 }) ∧
    (∀ fb, (routeExecute true (CallResult.err e) fb).fallback_attempts = 1) ∧
    (∀ fb, (routeExecute true (CallResult.err e) fb).primary_failure_recorded =
      match fb with
      | CallResult.ok _ => false
      | CallResult.err _ => true) := by
  refine ⟨?_, ?_, ?_, ?_⟩
  · intro c; simp [routeExecute, he]
  · intro e2; simp [routeExecute, he]
  · intro fb; cases fb <;> simp [routeExecute, he]
  · intro fb; cases fb <;> simp [routeExecute, he]

/-- Witness for C8: a quota_exceeded primary failure with a configured
fallback that succeeds yields the fallback content, one fallback attempt and
no recorded health failure for the primary model. -/
theorem C8_fallback_retry_witness :
    routeExecute true (CallResult.err AgentCallError.quota_exceeded) (CallResult.ok "x") =
      { result := CallResult.ok "x", primary_failure_recorded := false,
        fallback_attempts := 1 } :=
  (C8_fallback_retry AgentCallError.quota_exceeded rfl).1 "x"

/-- addEvent from src/unnamed/part_002 (AggregatorLogs): the new event is
prepended and the list is cut to the most recent 100 entries, newest first, so
the oldest retained event is evicted when the buffer is full. -/
def addEvent {α : Type} (e : α) (prev : List α) : List α :=
  (e :: prev).take 100

/-- emit from src/frontend/src/services/websocket.js: the listener registry
keeps, per event type, the callbacks in registration order (on pushes to the
list); emit looks up the callbacks registered for the published event type and
invokes each of them with the event data. Here subs is the registry as
(eventType, callbackId) pairs in registration order, and the value is the list
of (callbackId, payload) invocations this one emit performs, in order. -/
def emitOne {Ev : Type} (subs : List (String × Nat)) (ty : String) (d : Ev) :
    List (Nat × Ev) :=
  (subs.filter (fun p => p.1 = ty)).map (fun p => (p.2, d))

/-- The chronological invocation log produced by publishing a sequence of
(eventType, payload) messages through emit, oldest first. -/
def runEmits {Ev : Type} (subs : List (String × Nat)) : List (String × Ev) → List (Nat × Ev)
  | [] => []
  | m :: ms => emitOne subs m.1 m.2 ++ runEmits subs ms

/-- The payloads a given callback receives, in invocation order. -/
def receivedBy {Ev : Type} (cb : Nat) (log : List (Nat × Ev)) : List Ev :=
  (log.filter (fun p => p.1 = cb)).map (fun p => p.2)

lemma receivedBy_append {Ev : Type} (cb : Nat) (a b : List (Nat × Ev)) :
    receivedBy cb (a ++ b) = receivedBy cb a ++ receivedBy cb b := by
  simp [receivedBy, List.filter_append]

lemma receivedBy_emitOne {Ev : Type} (subs : List (String × Nat)) (cb : Nat) (t ty : String)
    (d : Ev) (hsub : subs.filter (fun p => p.2 = cb) = [(t, cb)]) :
    receivedBy cb (emitOne subs ty d) = if ty = t then [d] else [] := by
  unfold receivedBy emitOne
  rw [List.filter_map]
  have hcomp : ((fun q : Nat × Ev => decide (q.1 = cb)) ∘
      (fun p : String × Nat => (p.2, d))) = fun p : String × Nat => decide (p.2 = cb) := rfl
  rw [hcomp]
  have key : (subs.filter (fun p => decide (p.1 = ty))).filter (fun p => decide (p.2 = cb)) =
      (subs.filter (fun p => decide (p.2 = cb))).filter (fun p => decide (p.1 = ty)) := by
    rw [List.filter_filter, List.filter_filter]
    exact List.filter_congr (fun a _ => Bool.and_comm _ _)
  rw [key, hsub]
  by_cases hty : t = ty
  · subst hty
    simp
  · have hty2 : ¬ (ty = t) := fun hh => hty hh.symm
    simp [hty, hty2]

/-- C9: the retained event history never exceeds the fixed capacity of 100,
and when the buffer is full adding an event evicts exactly the oldest retained
event (the last of the newest-first list); and for every callback registered
exactly once, for one event type, the payloads it receives from a published
message sequence are exactly the payloads of the matching messages, in
publication order (strict per-subscriber FIFO). -/
theorem C9_eventbus_bounded_fifo :
    (∀ (e : Nat) (prev : List Nat), (addEvent e prev).length ≤ 100) ∧
    (∀ (e : Nat) (prev : List Nat), prev.length = 100 →
      addEvent e prev = e :: prev.dropLast) ∧
    (∀ (subs : List (String × Nat)) (cb : Nat) (t : String) (msgs : List (String × Nat)),
      subs.filter (fun p => p.2 = cb) = [(t, cb)] →
      receivedBy cb (runEmits subs msgs) =
        (msgs.filter (fun m => m.1 = t)).map (fun m => m.2)) := by
  refine ⟨?_, ?_, ?_⟩
  · intro e prev
    simp [addEvent]
  · intro e prev hlen
    have hdrop : prev.dropLast = prev.take 99 := by
      rw [List.dropLast_eq_take, hlen]
    rw [addEvent, List.take_succ_cons, hdrop]
  · intro subs cb t msgs hsub
    induction msgs with
    | nil => simp [runEmits, receivedBy]
    | cons m ms ih =>
      have hrun : runEmits subs (m :: ms) = emitOne subs m.1 m.2 ++ runEmits subs ms := rfl
      rw [hrun, receivedBy_append, receivedBy_emitOne subs cb t m.1 m.2 hsub, ih,
        List.filter_cons]
      by_cases hm : m.1 = t
      · simp [hm]
      · simp [hm]

/-- Witness for C9: a full buffer of 100 events evicts only the oldest on the
next publish, and a subscriber of type a receives exactly the payloads of the
type-a messages in publication order. -/
theorem C9_eventbus_bounded_fifo_witness :
    addEvent 5 (List.range 100) = 5 :: (List.range 100).dropLast ∧
    receivedBy 7 (runEmits [("a", 7)] [("a", 1), ("b", 2), ("a", 3)]) = [1, 3] :=
  ⟨C9_eventbus_bounded_fifo.2.1 5 (List.range 100) (by simp),
   (C9_eventbus_bounded_fifo.2.2 [("a", 7)] 7 "a" [("a", 1), ("b", 2), ("a", 3)]
      (by decide)).trans (by decide)⟩

/-- The existingBoostStates map built by mergeTasksPreservingBoost in
src/unnamed/part_006: a forEach assignment map from task_id to using_boost, so
with duplicate ids the last occurrence wins; a missing id reads as undefined,
which the merge formula collapses to false. -/
def boostStateOf (existing : List Task) (id : String) : Bool :=
  match existing.reverse.find? (fun t => t.task_id = id) with
  | some t => t.using_boost
  | none => false

/-- mergeTasksPreservingBoost from src/unnamed/part_006 (WorkflowPanel): each
incoming task keeps all its fields except that using_boost becomes
task.using_boost OR existingBoostStates of its task_id OR false, preserving a
locally displayed boost the backend has not confirmed yet. -/
def mergeTasksPreservingBoost (incoming existing : List Task) : List Task :=
  incoming.map (fun t => { t with using_boost := t.using_boost || boostStateOf existing t.task_id })

/-- The inline merge in the handleWorkflowUpdated and handleTaskCompleted
event handlers of src/unnamed/part_006, which repeats the same formula:
using_boost becomes task.using_boost OR the previously displayed flag OR
false. -/
def workflowUpdatedMerge (incoming prevTasks : List Task) : List Task :=
  incoming.map (fun t => { t with using_boost := t.using_boost || boostStateOf prevTasks t.task_id })

/-- C10: in the workflow panel prediction merges, for every position of the
incoming list the merged using_boost equals the OR of the incoming flag and
the previously displayed flag for that task id, so a merge never turns a
displayed true into false; the inline event-handler merge is the same
operation as mergeTasksPreservingBoost; and clearing a flag is possible only
through the explicit per-task toggle handler, which sets exactly the toggled
value on the matching task. -/
theorem C10_merge_preserves_boost :
    (∀ (incoming existing : List Task) (i : Nat) (t : Task),
      incoming[i]? = some t →
      (mergeTasksPreservingBoost incoming existing)[i]? =
        some { t with using_boost := t.using_boost || boostStateOf existing t.task_id }) ∧
    (∀ (incoming existing : List Task) (i : Nat) (t : Task),
      incoming[i]? = some t → boostStateOf existing t.task_id = true →
      ∃ u, (mergeTasksPreservingBoost incoming existing)[i]? = some u ∧
        u.using_boost = true) ∧
    (∀ incoming prevTasks,
      workflowUpdatedMerge incoming prevTasks = mergeTasksPreservingBoost incoming prevTasks) ∧
    (∀ (taskId : String) (tasks : List Task) (i : Nat) (t : Task),
      tasks[i]? = some t → t.task_id = taskId →
      (handleBoostToggled taskId false tasks)[i]? =
        some { t with using_boost := false }) := by
  have hmain : ∀ (incoming existing : List Task) (i : Nat) (t : Task),
      incoming[i]? = some t →
      (mergeTasksPreservingBoost incoming existing)[i]? =
        some { t with using_boost := t.using_boost || boostStateOf existing t.task_id } := by
    intro incoming existing i t ht
    simp only [mergeTasksPreservingBoost]
    rw [List.getElem?_map, ht]
    rfl
  refine ⟨hmain, ?_, fun incoming prevTasks => rfl, ?_⟩
  · intro incoming existing i t ht hprev
    refine ⟨{ t with using_boost := t.using_boost || boostStateOf existing t.task_id },
      hmain incoming existing i t ht, ?_⟩
    simp [hprev]
  · intro taskId tasks i t ht hid
    simp only [handleBoostToggled]
    rw [List.getElem?_map, ht]
    simp [hid]

/-- Witness for C10: a fresh prediction with using_boost false merged over a
displayed task with using_boost true stays true, and the explicit toggle
handler clears the same task to false. -/
theorem C10_merge_preserves_boost_witness :
    (mergeTasksPreservingBoost
        [{ task_id := "t1", sequence_number := 1, role := "Validator", mode := none,
           provider := "lm_studio", using_boost := false, completed := false,
           active := false }]
        [{ task_id := "t1", sequence_number := 1, role := "Validator", mode := none,
           provider := "lm_studio", using_boost := true, completed := false,
           active := false }])[0]? =
      some { task_id := "t1", sequence_number := 1, role := "Validator", mode := none,
             provider := "lm_studio", using_boost := true, completed := false,
             active := false } ∧
    (handleBoostToggled "t1" false
        [{ task_id := "t1", sequence_number := 1, role := "Validator", mode := none,
           provider := "lm_studio", using_boost := true, completed := false,
           active := false }])[0]? =
      some { task_id := "t1", sequence_number := 1, role := "Validator", mode := none,
             provider := "lm_studio", using_boost := false, completed := false,
             active := false } :=
  ⟨(C10_merge_preserves_boost.1
      [{ task_id := "t1", sequence_number := 1, role := "Validator", mode := none,
         provider := "lm_studio", using_boost := false, completed := false,
         active := false }]
      [{ task_id := "t1", sequence_number := 1, role := "Validator", mode := none,
         provider := "lm_studio", using_boost := true, completed := false,
         active := false }] 0
      { task_id := "t1", sequence_number := 1, role := "Validator", mode := none,
        provider := "lm_studio", using_boost := false, completed := false,
        active := false } rfl).trans (by decide),
   C10_merge_preserves_boost.2.2.2 "t1"
      [{ task_id := "t1", sequence_number := 1, role := "Validator", mode := none,
         provider := "lm_studio", using_boost := true, completed := false,
         active := false }] 0
      { task_id := "t1", sequence_number := 1, role := "Validator", mode := none,
        provider := "lm_studio", using_boost := true, completed := false,
        active := false } rfl rfl⟩

end MOTO
